import Mathlib

/-!
SinricPro_Generic: dimmable switch request dispatch and power sensor events

A shallow embedding of `src/src/SinricProDimSwitch.h` and
`src/src/SinricProPowerSensor.h`.

* C++ `int` values are `Int`; `unsigned long` values are `Nat` below `ULONG_MOD`
  (32-bit on the ARM boards named in the file headers), with the wrap-around of
  unsigned subtraction and multiplication written out.
* A finite C++ `float` is the rational it stands for; every float operation
  rounds its exact result by a `FloatRounding`, which is a parameter of the model
  (`binary32` on the target, `exactArithmetic` for exact arithmetic); `none` is
  a float that is not a finite number.
* A `std::function` slot is an `Option`: `nullptr` is `none`.
* Callbacks and the base-class handler run user code, so they thread a state
  `σ` of the surrounding program; `handleRequest` also records which handlers it
  invoked, and with which arguments, in the ghost field `calls`.
-/

namespace SinricPro

/-! ## JSON values (ArduinoJson `JsonObject`, as far as these files use it) -/

/-- One member value of a JSON object. `real none` is a float that is not a
finite number (the outcome of a division by zero). -/
inductive JsonVariant where
  | null
  | integer (n : Int)
  | real (x : Option ℚ)
  | text (s : String)
deriving DecidableEq

/-- A JSON object: its members in insertion order. -/
structure JsonObject where
  members : List (String × JsonVariant)
deriving DecidableEq

/-- The empty object. -/
def JsonObject.empty : JsonObject := ⟨[]⟩

/-- Replace the value of `key` in a member list, or append the member. -/
def setMember : List (String × JsonVariant) → String → JsonVariant → List (String × JsonVariant)
  | [], key, v => [(key, v)]
  | (k, x) :: rest, key, v =>
    if k = key then (k, v) :: rest else (k, x) :: setMember rest key v

/-- The read `obj[key]`: the member value, `null` when there is no such member. -/
def JsonObject.get (o : JsonObject) (key : String) : JsonVariant :=
  match o.members.lookup key with
  | some v => v
  | none => JsonVariant.null

/-- The assignment `obj[key] = v`. -/
def JsonObject.set (o : JsonObject) (key : String) (v : JsonVariant) : JsonObject :=
  ⟨setMember o.members key v⟩

/-- Least value of a C++ `int` (32 bits). -/
def INT_MIN : Int := -2147483648

/-- Greatest value of a C++ `int` (32 bits). -/
def INT_MAX : Int := 2147483647

/-- Truncation of a rational toward zero. -/
def truncToInt (q : ℚ) : Int :=
  if 0 ≤ q then q.floor else -((-q).floor)

/-- The conversion `int x = variant;` of ArduinoJson: an integer that fits an
`int` is itself, a finite float that fits is truncated, everything else is 0. -/
def JsonVariant.asInt : JsonVariant → Int
  | JsonVariant.integer n => if INT_MIN ≤ n ∧ n ≤ INT_MAX then n else 0
  | JsonVariant.real (some q) =>
    if INT_MIN ≤ truncToInt q ∧ truncToInt q ≤ INT_MAX then truncToInt q else 0
  | _ => 0

/-! ## SinricProDimSwitch -/

/-- The constant `DIM_SWITCH_MIN_POWER_LEVEL`. -/
def DIM_SWITCH_MIN_POWER_LEVEL : Int := 0

/-- The constant `DIM_SWITCH_MAX_POWER_LEVEL`. -/
def DIM_SWITCH_MAX_POWER_LEVEL : Int := 100

/-- Modelled from the spec: `limitValue`, a helper of this library declared
outside the files under `src/`; the spec describes it as clamping the value
into fixed numeric bounds ("power level clamped to [0,100]"). -/
def limitValue (value minValue maxValue : Int) : Int :=
  if value > maxValue then maxValue
  else if value < minValue then minValue
  else value

/-- The type `std::function<bool(const String&, int&)>`: given the device id and
the in/out integer, user code returns its success flag and the value it left in
the in/out parameter, and changes the program state. -/
abbrev SetPowerLevelCallback (σ : Type) := String → Int → σ → Bool × Int × σ

/-- The type `AdjustPowerLevelCallback`, the same function type. -/
abbrev AdjustPowerLevelCallback (σ : Type) := String → Int → σ → Bool × Int × σ

/-- The base-class method `SinricProDevice::handleRequest`, which is not part of
these files: it reads the request, may write the response and run user code,
and returns whether it handled the request. -/
abbrev BaseHandler (σ : Type) :=
  String → String → JsonObject → JsonObject → σ → Bool × JsonObject × σ

/-- The object state of a `SinricProDimSwitch`. -/
structure SinricProDimSwitch (σ : Type) where
  deviceId : String
  baseHandleRequest : BaseHandler σ
  setPowerLevelCallback : Option (SetPowerLevelCallback σ)
  adjustPowerLevelCallback : Option (AdjustPowerLevelCallback σ)

/-- The constructor: both callback slots start as `nullptr`. -/
def SinricProDimSwitch.construct {σ : Type} (deviceId : String) (base : BaseHandler σ) :
    SinricProDimSwitch σ :=
  ⟨deviceId, base, none, none⟩

/-- The method `onPowerLevel`: `setPowerLevelCallback = cb`. -/
def SinricProDimSwitch.onPowerLevel {σ : Type} (d : SinricProDimSwitch σ)
    (cb : Option (SetPowerLevelCallback σ)) : SinricProDimSwitch σ :=
  ⟨d.deviceId, d.baseHandleRequest, cb, d.adjustPowerLevelCallback⟩

/-- The method `onAdjustPowerLevel`: `adjustPowerLevelCallback = cb`. -/
def SinricProDimSwitch.onAdjustPowerLevel {σ : Type} (d : SinricProDimSwitch σ)
    (cb : Option (AdjustPowerLevelCallback σ)) : SinricProDimSwitch σ :=
  ⟨d.deviceId, d.baseHandleRequest, d.setPowerLevelCallback, cb⟩

/-- Ghost record of one handler invocation made by `handleRequest`. -/
inductive Invocation where
  | baseHandleRequest (deviceId action : String)
  | setPowerLevel (deviceId : String) (powerLevel : Int)
  | adjustPowerLevel (deviceId : String) (powerLevelDelta : Int)
deriving DecidableEq

/-- What a call of `handleRequest` leaves behind: the returned flag, the
response object, the program state, and the handlers invoked, in order. -/
structure HandleResult (σ : Type) where
  success : Bool
  response_value : JsonObject
  world : σ
  calls : List Invocation

/-- The block `if (setPowerLevelCallback && actionString == "setPowerLevel")`. -/
def setPowerLevelBlock {σ : Type} (d : SinricProDimSwitch σ) (deviceId action : String)
    (request_value : JsonObject) (r : HandleResult σ) : HandleResult σ :=
  match d.setPowerLevelCallback with
  | none => r
  | some cb =>
    if action = "setPowerLevel" then
      let powerLevel := (request_value.get "powerLevel").asInt
      let out := cb deviceId powerLevel r.world
      ⟨out.1,
       r.response_value.set "powerLevel"
         (JsonVariant.integer
           (limitValue out.2.1 DIM_SWITCH_MIN_POWER_LEVEL DIM_SWITCH_MAX_POWER_LEVEL)),
       out.2.2,
       r.calls ++ [Invocation.setPowerLevel deviceId powerLevel]⟩
    else r

/-- The block `if (adjustPowerLevelCallback && actionString == "adjustPowerLevel")`. -/
def adjustPowerLevelBlock {σ : Type} (d : SinricProDimSwitch σ) (deviceId action : String)
    (request_value : JsonObject) (r : HandleResult σ) : HandleResult σ :=
  match d.adjustPowerLevelCallback with
  | none => r
  | some cb =>
    if action = "adjustPowerLevel" then
      let powerLevelDelta := (request_value.get "powerLevelDelta").asInt
      let out := cb deviceId powerLevelDelta r.world
      ⟨out.1,
       r.response_value.set "powerLevel"
         (JsonVariant.integer
           (limitValue out.2.1 DIM_SWITCH_MIN_POWER_LEVEL DIM_SWITCH_MAX_POWER_LEVEL)),
       out.2.2,
       r.calls ++ [Invocation.adjustPowerLevel deviceId powerLevelDelta]⟩
    else r

/-- The method `SinricProDimSwitch::handleRequest`. -/
def SinricProDimSwitch.handleRequest {σ : Type} (d : SinricProDimSwitch σ)
    (deviceId action : String) (request_value response_value : JsonObject) (w : σ) :
    HandleResult σ :=
  if deviceId ≠ d.deviceId then
    ⟨false, response_value, w, []⟩
  else
    let b := d.baseHandleRequest deviceId action request_value response_value w
    if b.1 then
      ⟨true, b.2.1, b.2.2, [Invocation.baseHandleRequest deviceId action]⟩
    else
      let r0 : HandleResult σ :=
        ⟨false, b.2.1, b.2.2, [Invocation.baseHandleRequest deviceId action]⟩
      let r1 := setPowerLevelBlock d deviceId action request_value r0
      adjustPowerLevelBlock d deviceId action request_value r1

/-- One registration call on a dimmable switch. -/
inductive Registration (σ : Type) where
  | onPowerLevel (cb : Option (SetPowerLevelCallback σ))
  | onAdjustPowerLevel (cb : Option (AdjustPowerLevelCallback σ))

/-- Perform one registration call. -/
def SinricProDimSwitch.register {σ : Type} (d : SinricProDimSwitch σ) :
    Registration σ → SinricProDimSwitch σ
  | Registration.onPowerLevel cb => d.onPowerLevel cb
  | Registration.onAdjustPowerLevel cb => d.onAdjustPowerLevel cb

/-- Perform a sequence of registration calls, first to last. -/
def SinricProDimSwitch.registerAll {σ : Type} (d : SinricProDimSwitch σ)
    (rs : List (Registration σ)) : SinricProDimSwitch σ :=
  rs.foldl SinricProDimSwitch.register d

/-- The handler most recently passed to `onPowerLevel` in a sequence of
registration calls, or `start` when the sequence has no such call. -/
def lastSetPowerLevel {σ : Type} (start : Option (SetPowerLevelCallback σ)) :
    List (Registration σ) → Option (SetPowerLevelCallback σ)
  | [] => start
  | Registration.onPowerLevel cb :: rest => lastSetPowerLevel cb rest
  | Registration.onAdjustPowerLevel _ :: rest => lastSetPowerLevel start rest

/-- The handler most recently passed to `onAdjustPowerLevel` in a sequence of
registration calls, or `start` when the sequence has no such call. -/
def lastAdjustPowerLevel {σ : Type} (start : Option (AdjustPowerLevelCallback σ)) :
    List (Registration σ) → Option (AdjustPowerLevelCallback σ)
  | [] => start
  | Registration.onPowerLevel _ :: rest => lastAdjustPowerLevel start rest
  | Registration.onAdjustPowerLevel cb :: rest => lastAdjustPowerLevel cb rest

/-! ## Float arithmetic -/

/-- How the exact result of a float operation becomes a `float`: the rounded
value, or `none` when the result is not a finite float. The model of the power
sensor takes the rounding as a parameter, so that it can be read both in exact
arithmetic and in the arithmetic of the target. -/
abbrev FloatRounding := ℚ → Option ℚ

/-- Exact arithmetic: no rounding, every result is kept as it is. -/
def exactArithmetic : FloatRounding := fun x => some x

/-- Nearest integer of a rational, a tie going to the even neighbour. -/
def roundHalfEven (x : ℚ) : Int :=
  if x - ⌊x⌋ < 1 / 2 then ⌊x⌋
  else if 1 / 2 < x - ⌊x⌋ then ⌊x⌋ + 1
  else if ⌊x⌋ % 2 = 0 then ⌊x⌋ else ⌊x⌋ + 1

/-- Number of halvings that bring `n` below 2, at most `fuel` of them. -/
def log2Steps : Nat → Nat → Nat
  | 0, _ => 0
  | fuel + 1, n => if n < 2 then 0 else log2Steps fuel (n / 2) + 1

/-- The binary logarithm of a natural number, rounded down (0 for 0). -/
def natLog2 (n : Nat) : Nat := log2Steps n n

/-- The binary exponent of a positive rational `x`: the `e` with
`2 ^ e ≤ x < 2 ^ (e + 1)`. -/
def floorLog2 (x : ℚ) : Int :=
  if (2 : ℚ) ^ ((natLog2 x.num.natAbs : Int) - (natLog2 x.den : Int)) ≤ x then
    (natLog2 x.num.natAbs : Int) - (natLog2 x.den : Int)
  else (natLog2 x.num.natAbs : Int) - (natLog2 x.den : Int) - 1

/-- The spacing of the `float` values around a nonzero `x`: 24 significant bits,
and the least exponent -126 (below it the values are subnormal). -/
def floatSpacing (x : ℚ) : ℚ :=
  2 ^ (max (floorLog2 |x|) (-126) - 23)

/-- The arithmetic of the target: IEEE 754 single precision, round to nearest
with ties to even; a result of magnitude `2 ^ 128` or more is not finite. -/
def binary32 : FloatRounding := fun x =>
  if x = 0 then some 0
  else if |(roundHalfEven (x / floatSpacing x) : ℚ) * floatSpacing x| < 2 ^ 128 then
    some ((roundHalfEven (x / floatSpacing x) : ℚ) * floatSpacing x)
  else none

/-- The product `a * b` of two finite floats. -/
def floatMul (rnd : FloatRounding) (a b : ℚ) : Option ℚ :=
  rnd (a * b)

/-- The quotient `a / b` of a float `a` by a finite float `b`; not a finite
number when `a` is not finite or `b` is zero. -/
def floatDiv (rnd : FloatRounding) (a : Option ℚ) (b : ℚ) : Option ℚ :=
  match a with
  | none => none
  | some x => if b = 0 then none else rnd (x / b)

/-- The conversion of an `unsigned long` to `float`. -/
def floatOfULong (rnd : FloatRounding) (n : Nat) : Option ℚ :=
  rnd (n : ℚ)

/-! ## SinricProPowerSensor -/

/-- Number of values of a C++ `unsigned long` (32 bits). -/
def ULONG_MOD : Nat := 4294967296

/-- Subtraction of two `unsigned long` values, which wraps around. -/
def ulongSub (a b : Nat) : Nat := (a % ULONG_MOD + ULONG_MOD - b % ULONG_MOD) % ULONG_MOD

/-- Multiplication of two `unsigned long` values, which wraps around. -/
def ulongMul (a b : Nat) : Nat := (a * b) % ULONG_MOD

/-- The implicit conversion of a finite `float` to `unsigned long` in
`lastPower = power`: the fractional part is discarded. C++ defines the
conversion only when the truncated value fits; outside that range the model
saturates, as the conversion instructions of the ARM targets do. -/
def floatToULong (x : ℚ) : Nat :=
  if x < 0 then 0
  else if (ULONG_MOD : ℚ) ≤ x then ULONG_MOD - 1
  else ⌊x⌋₊

/-- The conversion in `lastPower = power` for a float that may not be finite;
C++ leaves the conversion of such a value undefined, the model stores 0. -/
def storeULong (x : Option ℚ) : Nat :=
  match x with
  | some q => floatToULong q
  | none => 0

/-- The object state of a `SinricProPowerSensor` (the base-class part reduced to
the device id). -/
structure SinricProPowerSensor where
  deviceId : String
  startTime : Nat
  lastPower : Nat
deriving DecidableEq

/-- The constructor; the member initialisers set `startTime = 0`, `lastPower = 0`. -/
def SinricProPowerSensor.construct (deviceId : String) : SinricProPowerSensor :=
  ⟨deviceId, 0, 0⟩

/-- The event document, reduced to the parts these files determine: the three
arguments of `prepareEvent` and the object at `["payload"]["value"]`. -/
structure EventMessage where
  deviceId : String
  action : String
  cause : String
  value : JsonObject
deriving DecidableEq

/-- Modelled from the spec: `prepareEvent` of the base class, which is outside
the files under `src/`; it stamps the device id, the event name and the cause
string on a document whose value object is still empty. -/
def prepareEvent (deviceId action cause : String) : EventMessage :=
  ⟨deviceId, action, cause, JsonObject.empty⟩

/-- The method `SinricProPowerSensor::getWattHours`: the `unsigned long` product
is converted to `float` and divided by `3600.0f`. -/
def SinricProPowerSensor.getWattHours (d : SinricProPowerSensor) (rnd : FloatRounding)
    (currentTimestamp : Nat) : Option ℚ :=
  if d.startTime ≠ 0 then
    floatDiv rnd
      (floatOfULong rnd (ulongMul (ulongSub currentTimestamp d.startTime) d.lastPower)) 3600
  else some 0

/-- What a call of `sendPowerSensorEvent` leaves behind: the returned flag, the
document handed to `sendEvent`, and the object state after the call. -/
structure SendResult where
  sent : Bool
  eventMessage : EventMessage
  device : SinricProPowerSensor

/-- The method `SinricProPowerSensor::sendPowerSensorEvent`, all arguments given.
`rnd` is the float arithmetic, `getTimestamp` the value the base-class clock
returns during the call and `sendEvent` the base-class transport, both outside
these files. The arguments are finite floats. -/
def SinricProPowerSensor.sendPowerSensorEvent (d : SinricProPowerSensor)
    (rnd : FloatRounding) (getTimestamp : Nat) (sendEvent : EventMessage → Bool)
    (voltage current power apparentPower reactivePower factor : ℚ) (cause : String) :
    SendResult :=
  let eventMessage := prepareEvent d.deviceId "powerUsage" cause
  let event_value := eventMessage.value
  let power := if power = -1 then floatMul rnd voltage current else some power
  let factor := if apparentPower ≠ -1 then floatDiv rnd power apparentPower else some factor
  let currentTimestamp := getTimestamp
  let event_value := event_value.set "startTime" (JsonVariant.integer (d.startTime : Int))
  let event_value := event_value.set "voltage" (JsonVariant.real (some voltage))
  let event_value := event_value.set "current" (JsonVariant.real (some current))
  let event_value := event_value.set "power" (JsonVariant.real power)
  let event_value := event_value.set "apparentPower" (JsonVariant.real (some apparentPower))
  let event_value := event_value.set "reactivePower" (JsonVariant.real (some reactivePower))
  let event_value := event_value.set "factor" (JsonVariant.real factor)
  let event_value := event_value.set "wattHours"
    (JsonVariant.real (d.getWattHours rnd currentTimestamp))
  let eventMessage : EventMessage :=
    ⟨eventMessage.deviceId, eventMessage.action, eventMessage.cause, event_value⟩
  ⟨sendEvent eventMessage, eventMessage, ⟨d.deviceId, currentTimestamp, storeULong power⟩⟩

/-- The value an optional `float` parameter takes at a call site: the argument
when one is written, the declared default `-1.0f` when it is left out. -/
def floatArg (a : Option ℚ) : ℚ :=
  match a with
  | some x => x
  | none => -1

/-- A call of `sendPowerSensorEvent` as written at a call site, where each of
`power`, `apparentPower`, `reactivePower`, `factor` and `cause` may be left out. -/
def SinricProPowerSensor.sendPowerSensorEventCall (d : SinricProPowerSensor)
    (rnd : FloatRounding) (getTimestamp : Nat) (sendEvent : EventMessage → Bool)
    (voltage current : ℚ) (power apparentPower reactivePower factor : Option ℚ)
    (cause : Option String) : SendResult :=
  d.sendPowerSensorEvent rnd getTimestamp sendEvent voltage current (floatArg power)
    (floatArg apparentPower) (floatArg reactivePower) (floatArg factor)
    (match cause with
     | some c => c
     | none => "PERIODIC_POLL")

/-! ## Concrete instances -/

/-- A base-class handler that handles exactly the action `setPowerState`. -/
def sampleBase : BaseHandler (List String) :=
  fun _ action _ response_value w =>
    if action = "setPowerState" then
      (true, response_value.set "state" (JsonVariant.text "On"), w)
    else (false, response_value, w)

/-- A `setPowerLevel` callback that reports twice the requested level and succeeds. -/
def sampleSetDouble : SetPowerLevelCallback (List String) :=
  fun _ powerLevel w => (true, 2 * powerLevel, "double" :: w)

/-- A `setPowerLevel` callback that reports a negative level and fails. -/
def sampleSetFail : SetPowerLevelCallback (List String) :=
  fun _ _ w => (false, -5, "fail" :: w)

/-- An `adjustPowerLevel` callback that leaves its in/out parameter unchanged. -/
def sampleAdjustKeep : AdjustPowerLevelCallback (List String) :=
  fun _ powerLevelDelta w => (true, powerLevelDelta, "keep" :: w)

/-- A switch with both callbacks registered. -/
def sampleSwitch : SinricProDimSwitch (List String) :=
  ((SinricProDimSwitch.construct "dimmer-1" sampleBase).onPowerLevel
    (some sampleSetDouble)).onAdjustPowerLevel (some sampleAdjustKeep)

/-- A request value carrying a level of 80 and a delta of -30. -/
def sampleRequest : JsonObject :=
  ⟨[("powerLevel", JsonVariant.integer 80), ("powerLevelDelta", JsonVariant.integer (-30))]⟩

/-- A transport that accepts every event. -/
def sampleSend : EventMessage → Bool := fun _ => true

/-- A fresh power sensor. -/
def sampleSensor : SinricProPowerSensor := SinricProPowerSensor.construct "sensor-1"

/-- The float nearest to 0.7, the value of the literal `0.7f`. -/
def sampleVoltage : ℚ := 11744051 / 16777216

/-- The first event of `sampleSensor` on the target: 3 V and 0.5 A at timestamp
1, power left out. -/
def sampleFirst : SendResult :=
  sampleSensor.sendPowerSensorEventCall binary32 1 sampleSend 3 (1 / 2) none none none none
    none

/-- The second event of `sampleSensor` on the target, at timestamp 3601. -/
def sampleSecond : SendResult :=
  sampleFirst.device.sendPowerSensorEventCall binary32 3601 sampleSend 3 (1 / 2) none none
    none none none

/-! ## Facts about JSON objects -/

theorem lookup_setMember_same (l : List (String × JsonVariant)) (key : String) (v : JsonVariant) :
    (setMember l key v).lookup key = some v := by
  induction l with
  | nil => simp [setMember, List.lookup]
  | cons hd tl ih =>
    obtain ⟨k, x⟩ := hd
    by_cases h : k = key
    · subst h
      simp [setMember, List.lookup]
    · have h2 : (key == k) = false := by
        simp only [beq_eq_false_iff_ne, ne_eq]
        exact fun e => h e.symm
      simp [setMember, h, List.lookup, h2, ih]

theorem lookup_setMember_other (l : List (String × JsonVariant)) (key other : String)
    (v : JsonVariant) (hne : other ≠ key) :
    (setMember l key v).lookup other = l.lookup other := by
  induction l with
  | nil =>
    have h2 : (other == key) = false := by simpa using hne
    simp [setMember, List.lookup, h2]
  | cons hd tl ih =>
    obtain ⟨k, x⟩ := hd
    by_cases h : k = key
    · subst h
      have h2 : (other == k) = false := by simpa using hne
      simp [setMember, List.lookup, h2]
    · by_cases h3 : other = k
      · subst h3
        simp [setMember, h, List.lookup]
      · have h4 : (other == k) = false := by simpa using h3
        simp [setMember, h, List.lookup, h4, ih]

theorem get_set_same (o : JsonObject) (key : String) (v : JsonVariant) :
    (o.set key v).get key = v := by
  simp [JsonObject.get, JsonObject.set, lookup_setMember_same]

theorem get_set_other (o : JsonObject) (key other : String) (v : JsonVariant)
    (hne : other ≠ key) : (o.set key v).get other = o.get other := by
  simp [JsonObject.get, JsonObject.set, lookup_setMember_other _ _ _ _ hne]

theorem limitValue_eq_clamp (p : Int) :
    limitValue p DIM_SWITCH_MIN_POWER_LEVEL DIM_SWITCH_MAX_POWER_LEVEL = max 0 (min p 100) := by
  unfold limitValue DIM_SWITCH_MIN_POWER_LEVEL DIM_SWITCH_MAX_POWER_LEVEL
  split_ifs <;> omega

/-! ## SinricProDimSwitch.handleRequest: the four ways through the method -/

theorem handleRequest_other_device {σ : Type} (d : SinricProDimSwitch σ)
    (deviceId action : String) (request_value response_value : JsonObject) (w : σ)
    (hid : deviceId ≠ d.deviceId) :
    d.handleRequest deviceId action request_value response_value w
      = ⟨false, response_value, w, []⟩ := by
  simp [SinricProDimSwitch.handleRequest, hid]

theorem handleRequest_base_handled {σ : Type} (d : SinricProDimSwitch σ)
    (deviceId action : String) (request_value response_value : JsonObject) (w : σ)
    (hid : deviceId = d.deviceId)
    (hbase : (d.baseHandleRequest deviceId action request_value response_value w).1 = true) :
    d.handleRequest deviceId action request_value response_value w
      = ⟨true, (d.baseHandleRequest deviceId action request_value response_value w).2.1,
          (d.baseHandleRequest deviceId action request_value response_value w).2.2,
          [Invocation.baseHandleRequest deviceId action]⟩ := by
  subst hid
  simp [SinricProDimSwitch.handleRequest, hbase]

theorem handleRequest_no_callback {σ : Type} (d : SinricProDimSwitch σ)
    (deviceId action : String) (request_value response_value : JsonObject) (w : σ)
    (hid : deviceId = d.deviceId)
    (hbase : (d.baseHandleRequest deviceId action request_value response_value w).1 = false)
    (hset : action = "setPowerLevel" → d.setPowerLevelCallback = none)
    (hadj : action = "adjustPowerLevel" → d.adjustPowerLevelCallback = none) :
    d.handleRequest deviceId action request_value response_value w
      = ⟨false, (d.baseHandleRequest deviceId action request_value response_value w).2.1,
          (d.baseHandleRequest deviceId action request_value response_value w).2.2,
          [Invocation.baseHandleRequest deviceId action]⟩ := by
  subst hid
  have h1 : ∀ r : HandleResult σ,
      setPowerLevelBlock d d.deviceId action request_value r = r := by
    intro r
    unfold setPowerLevelBlock
    by_cases ha : action = "setPowerLevel"
    · rw [hset ha]
    · cases d.setPowerLevelCallback <;> simp [ha]
  have h2 : ∀ r : HandleResult σ,
      adjustPowerLevelBlock d d.deviceId action request_value r = r := by
    intro r
    unfold adjustPowerLevelBlock
    by_cases ha : action = "adjustPowerLevel"
    · rw [hadj ha]
    · cases d.adjustPowerLevelCallback <;> simp [ha]
  simp [SinricProDimSwitch.handleRequest, hbase, h1, h2]

theorem handleRequest_set_path {σ : Type} (d : SinricProDimSwitch σ)
    (deviceId : String) (request_value response_value : JsonObject) (w : σ)
    (cb : SetPowerLevelCallback σ) (ok : Bool) (p : Int) (w2 : σ)
    (hid : deviceId = d.deviceId)
    (hbase : (d.baseHandleRequest deviceId "setPowerLevel" request_value response_value w).1
      = false)
    (hcb : d.setPowerLevelCallback = some cb)
    (hout : cb deviceId (request_value.get "powerLevel").asInt
      (d.baseHandleRequest deviceId "setPowerLevel" request_value response_value w).2.2
      = (ok, p, w2)) :
    d.handleRequest deviceId "setPowerLevel" request_value response_value w
      = ⟨ok,
          (d.baseHandleRequest deviceId "setPowerLevel" request_value response_value w).2.1.set
            "powerLevel" (JsonVariant.integer (max 0 (min p 100))),
          w2,
          [Invocation.baseHandleRequest deviceId "setPowerLevel",
           Invocation.setPowerLevel deviceId (request_value.get "powerLevel").asInt]⟩ := by
  subst hid
  have hne : ¬ ("setPowerLevel" = "adjustPowerLevel") := by decide
  have h2 : ∀ r : HandleResult σ,
      adjustPowerLevelBlock d d.deviceId "setPowerLevel" request_value r = r := by
    intro r
    unfold adjustPowerLevelBlock
    cases d.adjustPowerLevelCallback <;> simp [hne]
  simp [SinricProDimSwitch.handleRequest, hbase, h2, setPowerLevelBlock, hcb, hout,
    limitValue_eq_clamp]

theorem handleRequest_adjust_path {σ : Type} (d : SinricProDimSwitch σ)
    (deviceId : String) (request_value response_value : JsonObject) (w : σ)
    (cb : AdjustPowerLevelCallback σ) (ok : Bool) (p : Int) (w2 : σ)
    (hid : deviceId = d.deviceId)
    (hbase : (d.baseHandleRequest deviceId "adjustPowerLevel" request_value response_value w).1
      = false)
    (hcb : d.adjustPowerLevelCallback = some cb)
    (hout : cb deviceId (request_value.get "powerLevelDelta").asInt
      (d.baseHandleRequest deviceId "adjustPowerLevel" request_value response_value w).2.2
      = (ok, p, w2)) :
    d.handleRequest deviceId "adjustPowerLevel" request_value response_value w
      = ⟨ok,
          (d.baseHandleRequest deviceId "adjustPowerLevel" request_value response_value w).2.1.set
            "powerLevel" (JsonVariant.integer (max 0 (min p 100))),
          w2,
          [Invocation.baseHandleRequest deviceId "adjustPowerLevel",
           Invocation.adjustPowerLevel deviceId (request_value.get "powerLevelDelta").asInt]⟩ := by
  subst hid
  have hne : ¬ ("adjustPowerLevel" = "setPowerLevel") := by decide
  have h1 : ∀ r : HandleResult σ,
      setPowerLevelBlock d d.deviceId "adjustPowerLevel" request_value r = r := by
    intro r
    unfold setPowerLevelBlock
    cases d.setPowerLevelCallback <;> simp [hne]
  simp [SinricProDimSwitch.handleRequest, hbase, h1, adjustPowerLevelBlock, hcb, hout,
    limitValue_eq_clamp]

theorem registerAll_slots {σ : Type} (rs : List (Registration σ)) (d : SinricProDimSwitch σ) :
    (d.registerAll rs).setPowerLevelCallback = lastSetPowerLevel d.setPowerLevelCallback rs
      ∧ (d.registerAll rs).adjustPowerLevelCallback
        = lastAdjustPowerLevel d.adjustPowerLevelCallback rs
      ∧ (d.registerAll rs).deviceId = d.deviceId := by
  induction rs generalizing d with
  | nil => simp [SinricProDimSwitch.registerAll, lastSetPowerLevel, lastAdjustPowerLevel]
  | cons r rest ih =>
    have h := ih (d.register r)
    simp only [SinricProDimSwitch.registerAll, List.foldl_cons] at h ⊢
    cases r <;> exact h

/-! ## Claims about SinricProDimSwitch -/

/-- C1: on the `setPowerLevel` path (matching device id, base class does not
handle, callback registered) the callback is invoked once, with the integer read
from `request_value["powerLevel"]`, and for every integer `p` it leaves in its
in/out parameter the response member `powerLevel` is
`limitValue p DIM_SWITCH_MIN_POWER_LEVEL DIM_SWITCH_MAX_POWER_LEVEL`, which is
`p` clamped to 0..100 and so lies between 0 and 100. -/
theorem handleRequest_setPowerLevel_clamped {σ : Type} (d : SinricProDimSwitch σ)
    (deviceId : String) (request_value response_value : JsonObject) (w : σ)
    (cb : SetPowerLevelCallback σ) (ok : Bool) (p : Int) (w2 : σ)
    (hid : deviceId = d.deviceId)
    (hbase : (d.baseHandleRequest deviceId "setPowerLevel" request_value response_value w).1
      = false)
    (hcb : d.setPowerLevelCallback = some cb)
    (hout : cb deviceId (request_value.get "powerLevel").asInt
      (d.baseHandleRequest deviceId "setPowerLevel" request_value response_value w).2.2
      = (ok, p, w2)) :
    (d.handleRequest deviceId "setPowerLevel" request_value response_value w).calls
        = [Invocation.baseHandleRequest deviceId "setPowerLevel",
           Invocation.setPowerLevel deviceId (request_value.get "powerLevel").asInt]
      ∧ (d.handleRequest deviceId "setPowerLevel" request_value response_value w).world = w2
      ∧ (d.handleRequest deviceId "setPowerLevel" request_value
          response_value w).response_value.get "powerLevel"
        = JsonVariant.integer
            (limitValue p DIM_SWITCH_MIN_POWER_LEVEL DIM_SWITCH_MAX_POWER_LEVEL)
      ∧ limitValue p DIM_SWITCH_MIN_POWER_LEVEL DIM_SWITCH_MAX_POWER_LEVEL = max 0 (min p 100)
      ∧ 0 ≤ limitValue p DIM_SWITCH_MIN_POWER_LEVEL DIM_SWITCH_MAX_POWER_LEVEL
      ∧ limitValue p DIM_SWITCH_MIN_POWER_LEVEL DIM_SWITCH_MAX_POWER_LEVEL ≤ 100 := by
  rw [handleRequest_set_path d deviceId request_value response_value w cb ok p w2 hid hbase
    hcb hout, limitValue_eq_clamp]
  refine ⟨rfl, rfl, ?_, rfl, ?_, ?_⟩
  · exact get_set_same _ _ _
  · omega
  · omega

/-- Witness of C1: the sample callback doubles the requested level 80, and the
response reports 100. -/
theorem handleRequest_setPowerLevel_clamped_witness :
    ("dimmer-1" = sampleSwitch.deviceId
      ∧ (sampleSwitch.baseHandleRequest "dimmer-1" "setPowerLevel" sampleRequest
          JsonObject.empty []).1 = false
      ∧ sampleSwitch.setPowerLevelCallback = some sampleSetDouble
      ∧ sampleSetDouble "dimmer-1" (sampleRequest.get "powerLevel").asInt
          (sampleSwitch.baseHandleRequest "dimmer-1" "setPowerLevel" sampleRequest
            JsonObject.empty []).2.2 = (true, 160, ["double"]))
    ∧ (sampleSwitch.handleRequest "dimmer-1" "setPowerLevel" sampleRequest
          JsonObject.empty []).response_value.get "powerLevel"
        = JsonVariant.integer
            (limitValue 160 DIM_SWITCH_MIN_POWER_LEVEL DIM_SWITCH_MAX_POWER_LEVEL)
    ∧ limitValue 160 DIM_SWITCH_MIN_POWER_LEVEL DIM_SWITCH_MAX_POWER_LEVEL = 100 :=
  ⟨⟨rfl, rfl, rfl, rfl⟩,
   (handleRequest_setPowerLevel_clamped sampleSwitch "dimmer-1" sampleRequest
      JsonObject.empty [] sampleSetDouble true 160 ["double"] rfl rfl rfl rfl).2.2.1,
   by decide⟩

/-- C2: on the `adjustPowerLevel` path (matching device id, base class does not
handle, callback registered) the callback receives the delta read from
`request_value["powerLevelDelta"]`, and the response member `powerLevel` is the
value `p` the callback leaves in its in/out parameter, limited to 0..100; when
the callback leaves a negative delta unchanged, the reported level is 0. -/
theorem handleRequest_adjustPowerLevel_limited {σ : Type} (d : SinricProDimSwitch σ)
    (deviceId : String) (request_value response_value : JsonObject) (w : σ)
    (cb : AdjustPowerLevelCallback σ) (ok : Bool) (p : Int) (w2 : σ)
    (hid : deviceId = d.deviceId)
    (hbase : (d.baseHandleRequest deviceId "adjustPowerLevel" request_value response_value w).1
      = false)
    (hcb : d.adjustPowerLevelCallback = some cb)
    (hout : cb deviceId (request_value.get "powerLevelDelta").asInt
      (d.baseHandleRequest deviceId "adjustPowerLevel" request_value response_value w).2.2
      = (ok, p, w2)) :
    (d.handleRequest deviceId "adjustPowerLevel" request_value response_value w).calls
        = [Invocation.baseHandleRequest deviceId "adjustPowerLevel",
           Invocation.adjustPowerLevel deviceId (request_value.get "powerLevelDelta").asInt]
      ∧ (d.handleRequest deviceId "adjustPowerLevel" request_value response_value w).world = w2
      ∧ (d.handleRequest deviceId "adjustPowerLevel" request_value
          response_value w).response_value.get "powerLevel"
        = JsonVariant.integer
            (limitValue p DIM_SWITCH_MIN_POWER_LEVEL DIM_SWITCH_MAX_POWER_LEVEL)
      ∧ limitValue p DIM_SWITCH_MIN_POWER_LEVEL DIM_SWITCH_MAX_POWER_LEVEL = max 0 (min p 100)
      ∧ (p = (request_value.get "powerLevelDelta").asInt → p < 0 →
          (d.handleRequest deviceId "adjustPowerLevel" request_value
            response_value w).response_value.get "powerLevel" = JsonVariant.integer 0) := by
  rw [handleRequest_adjust_path d deviceId request_value response_value w cb ok p w2 hid hbase
    hcb hout, limitValue_eq_clamp]
  refine ⟨rfl, rfl, ?_, rfl, ?_⟩
  · exact get_set_same _ _ _
  · intro _ hneg
    have h0 : max 0 (min p 100) = 0 := by omega
    rw [h0]
    exact get_set_same _ _ _

/-- Witness of C2: the sample callback leaves the delta -30 unchanged, and the
response reports 0. -/
theorem handleRequest_adjustPowerLevel_limited_witness :
    ("dimmer-1" = sampleSwitch.deviceId
      ∧ (sampleSwitch.baseHandleRequest "dimmer-1" "adjustPowerLevel" sampleRequest
          JsonObject.empty []).1 = false
      ∧ sampleSwitch.adjustPowerLevelCallback = some sampleAdjustKeep
      ∧ sampleAdjustKeep "dimmer-1" (sampleRequest.get "powerLevelDelta").asInt
          (sampleSwitch.baseHandleRequest "dimmer-1" "adjustPowerLevel" sampleRequest
            JsonObject.empty []).2.2 = (true, -30, ["keep"])
      ∧ (-30 : Int) = (sampleRequest.get "powerLevelDelta").asInt ∧ (-30 : Int) < 0)
    ∧ (sampleSwitch.handleRequest "dimmer-1" "adjustPowerLevel" sampleRequest
          JsonObject.empty []).response_value.get "powerLevel" = JsonVariant.integer 0 :=
  ⟨⟨rfl, rfl, rfl, rfl, rfl, by decide⟩,
   (handleRequest_adjustPowerLevel_limited sampleSwitch "dimmer-1" sampleRequest
      JsonObject.empty [] sampleAdjustKeep true (-30) ["keep"] rfl rfl rfl rfl).2.2.2.2
      rfl (by decide)⟩

/-- C3: for a request with matching device id that the base class does not
handle, whose action is `setPowerLevel` (resp. `adjustPowerLevel`) with the
corresponding callback registered, `handleRequest` returns exactly the boolean
`ok` the callback returned, and the response member `powerLevel` is written
whatever `ok` is, also when it is `false`. -/
theorem handleRequest_returns_callback_result {σ : Type} (d : SinricProDimSwitch σ)
    (deviceId action : String) (request_value response_value : JsonObject) (w : σ)
    (cb : String → Int → σ → Bool × Int × σ) (ok : Bool) (p : Int) (w2 : σ)
    (hid : deviceId = d.deviceId)
    (hbase : (d.baseHandleRequest deviceId action request_value response_value w).1 = false)
    (hpath :
      (action = "setPowerLevel" ∧ d.setPowerLevelCallback = some cb
        ∧ cb deviceId (request_value.get "powerLevel").asInt
            (d.baseHandleRequest deviceId action request_value response_value w).2.2
          = (ok, p, w2))
      ∨ (action = "adjustPowerLevel" ∧ d.adjustPowerLevelCallback = some cb
        ∧ cb deviceId (request_value.get "powerLevelDelta").asInt
            (d.baseHandleRequest deviceId action request_value response_value w).2.2
          = (ok, p, w2))) :
    (d.handleRequest deviceId action request_value response_value w).success = ok
      ∧ (ok = false →
          (d.handleRequest deviceId action request_value response_value w).success = false)
      ∧ (d.handleRequest deviceId action request_value response_value w).response_value.get
          "powerLevel"
        = JsonVariant.integer
            (limitValue p DIM_SWITCH_MIN_POWER_LEVEL DIM_SWITCH_MAX_POWER_LEVEL) := by
  rcases hpath with ⟨ha, hcb, hout⟩ | ⟨ha, hcb, hout⟩
  · subst ha
    rw [handleRequest_set_path d deviceId request_value response_value w cb ok p w2 hid hbase
      hcb hout, limitValue_eq_clamp]
    exact ⟨rfl, fun h => h, get_set_same _ _ _⟩
  · subst ha
    rw [handleRequest_adjust_path d deviceId request_value response_value w cb ok p w2 hid
      hbase hcb hout, limitValue_eq_clamp]
    exact ⟨rfl, fun h => h, get_set_same _ _ _⟩

/-- Witness of C3: a failing `setPowerLevel` callback makes `handleRequest`
return false, and the response still carries a power level. -/
theorem handleRequest_returns_callback_result_witness :
    ("dimmer-1" = (sampleSwitch.onPowerLevel (some sampleSetFail)).deviceId
      ∧ ((sampleSwitch.onPowerLevel (some sampleSetFail)).baseHandleRequest "dimmer-1"
          "setPowerLevel" sampleRequest JsonObject.empty []).1 = false
      ∧ (sampleSwitch.onPowerLevel (some sampleSetFail)).setPowerLevelCallback
          = some sampleSetFail
      ∧ sampleSetFail "dimmer-1" (sampleRequest.get "powerLevel").asInt
          ((sampleSwitch.onPowerLevel (some sampleSetFail)).baseHandleRequest "dimmer-1"
            "setPowerLevel" sampleRequest JsonObject.empty []).2.2 = (false, -5, ["fail"]))
    ∧ ((sampleSwitch.onPowerLevel (some sampleSetFail)).handleRequest "dimmer-1"
          "setPowerLevel" sampleRequest JsonObject.empty []).success = false
    ∧ ((sampleSwitch.onPowerLevel (some sampleSetFail)).handleRequest "dimmer-1"
          "setPowerLevel" sampleRequest JsonObject.empty []).response_value.get "powerLevel"
        = JsonVariant.integer
            (limitValue (-5) DIM_SWITCH_MIN_POWER_LEVEL DIM_SWITCH_MAX_POWER_LEVEL) :=
  ⟨⟨rfl, rfl, rfl, rfl⟩,
   (handleRequest_returns_callback_result (sampleSwitch.onPowerLevel (some sampleSetFail))
      "dimmer-1" "setPowerLevel" sampleRequest JsonObject.empty [] sampleSetFail false (-5)
      ["fail"] rfl rfl (Or.inl ⟨rfl, rfl, rfl⟩)).1,
   (handleRequest_returns_callback_result (sampleSwitch.onPowerLevel (some sampleSetFail))
      "dimmer-1" "setPowerLevel" sampleRequest JsonObject.empty [] sampleSetFail false (-5)
      ["fail"] rfl rfl (Or.inl ⟨rfl, rfl, rfl⟩)).2.2⟩

/-- C4: for a request with matching device id that the base class does not
handle, when the action is neither `setPowerLevel` nor `adjustPowerLevel`, or the
slot for the action is empty, `handleRequest` returns false, invokes nothing but
the base-class handler, and leaves response and program state as the base class
left them; a freshly constructed device has both slots empty, and registering
`nullptr` empties a slot. -/
theorem handleRequest_without_callback {σ : Type} (d : SinricProDimSwitch σ)
    (deviceId action : String) (request_value response_value : JsonObject) (w : σ)
    (hid : deviceId = d.deviceId)
    (hbase : (d.baseHandleRequest deviceId action request_value response_value w).1 = false)
    (hset : action = "setPowerLevel" → d.setPowerLevelCallback = none)
    (hadj : action = "adjustPowerLevel" → d.adjustPowerLevelCallback = none) :
    ((d.handleRequest deviceId action request_value response_value w).success = false
      ∧ (d.handleRequest deviceId action request_value response_value w).calls
          = [Invocation.baseHandleRequest deviceId action]
      ∧ (d.handleRequest deviceId action request_value response_value w).response_value
          = (d.baseHandleRequest deviceId action request_value response_value w).2.1
      ∧ (d.handleRequest deviceId action request_value response_value w).world
          = (d.baseHandleRequest deviceId action request_value response_value w).2.2)
    ∧ ((SinricProDimSwitch.construct deviceId d.baseHandleRequest).setPowerLevelCallback = none
      ∧ (SinricProDimSwitch.construct deviceId d.baseHandleRequest).adjustPowerLevelCallback
          = none)
    ∧ ((d.onPowerLevel none).setPowerLevelCallback = none
      ∧ (d.onAdjustPowerLevel none).adjustPowerLevelCallback = none) := by
  rw [handleRequest_no_callback d deviceId action request_value response_value w hid hbase
    hset hadj]
  exact ⟨⟨rfl, rfl, rfl, rfl⟩, ⟨rfl, rfl⟩, ⟨rfl, rfl⟩⟩

/-- Witness of C4: a fresh device answers a `setPowerLevel` request with false
and writes nothing. -/
theorem handleRequest_without_callback_witness :
    ("dimmer-1" = (SinricProDimSwitch.construct "dimmer-1" sampleBase).deviceId
      ∧ ((SinricProDimSwitch.construct "dimmer-1" sampleBase).baseHandleRequest "dimmer-1"
          "setPowerLevel" sampleRequest JsonObject.empty []).1 = false
      ∧ ("setPowerLevel" = "setPowerLevel" →
          (SinricProDimSwitch.construct "dimmer-1" sampleBase).setPowerLevelCallback = none)
      ∧ ("setPowerLevel" = "adjustPowerLevel" →
          (SinricProDimSwitch.construct "dimmer-1" sampleBase).adjustPowerLevelCallback = none))
    ∧ ((SinricProDimSwitch.construct "dimmer-1" sampleBase).handleRequest "dimmer-1"
          "setPowerLevel" sampleRequest JsonObject.empty []).success = false
    ∧ ((SinricProDimSwitch.construct "dimmer-1" sampleBase).handleRequest "dimmer-1"
          "setPowerLevel" sampleRequest JsonObject.empty []).response_value
        = JsonObject.empty :=
  ⟨⟨rfl, rfl, fun _ => rfl, fun _ => rfl⟩,
   (handleRequest_without_callback (SinricProDimSwitch.construct "dimmer-1" sampleBase)
      "dimmer-1" "setPowerLevel" sampleRequest JsonObject.empty [] rfl rfl (fun _ => rfl)
      (fun _ => rfl)).1.1,
   (handleRequest_without_callback (SinricProDimSwitch.construct "dimmer-1" sampleBase)
      "dimmer-1" "setPowerLevel" sampleRequest JsonObject.empty [] rfl rfl (fun _ => rfl)
      (fun _ => rfl)).1.2.2.1⟩

/-- C7: registration is last-write-wins and per slot. After `onPowerLevel cb1`
then `onPowerLevel cb2` the device is the one `onPowerLevel cb2` alone gives, so
a `setPowerLevel` request runs `cb2` and `cb1` plays no part; `onPowerLevel`
leaves the adjust slot as it was and `onAdjustPowerLevel` the set slot; after any
sequence of registrations on a fresh device each slot is empty or holds the
handler most recently registered for it. -/
theorem registration_last_write_wins {σ : Type} (d : SinricProDimSwitch σ)
    (cb1 cb2 : Option (SetPowerLevelCallback σ)) (ca1 ca2 : Option (AdjustPowerLevelCallback σ))
    (rs : List (Registration σ)) (c2 : SetPowerLevelCallback σ)
    (deviceId : String) (request_value response_value : JsonObject) (w : σ)
    (ok : Bool) (p : Int) (w2 : σ) :
    ((d.onPowerLevel cb1).onPowerLevel cb2).setPowerLevelCallback = cb2
      ∧ (d.onPowerLevel cb1).onPowerLevel cb2 = d.onPowerLevel cb2
      ∧ ((d.onAdjustPowerLevel ca1).onAdjustPowerLevel ca2).adjustPowerLevelCallback = ca2
      ∧ (d.onAdjustPowerLevel ca1).onAdjustPowerLevel ca2 = d.onAdjustPowerLevel ca2
      ∧ (d.onPowerLevel cb1).adjustPowerLevelCallback = d.adjustPowerLevelCallback
      ∧ (d.onAdjustPowerLevel ca1).setPowerLevelCallback = d.setPowerLevelCallback
      ∧ ((SinricProDimSwitch.construct deviceId d.baseHandleRequest).registerAll
            rs).setPowerLevelCallback = lastSetPowerLevel none rs
      ∧ ((SinricProDimSwitch.construct deviceId d.baseHandleRequest).registerAll
            rs).adjustPowerLevelCallback = lastAdjustPowerLevel none rs
      ∧ (deviceId = d.deviceId →
          (d.baseHandleRequest deviceId "setPowerLevel" request_value response_value w).1
            = false →
          cb2 = some c2 →
          c2 deviceId (request_value.get "powerLevel").asInt
            (d.baseHandleRequest deviceId "setPowerLevel" request_value response_value w).2.2
            = (ok, p, w2) →
          ((d.onPowerLevel cb1).onPowerLevel cb2).handleRequest deviceId "setPowerLevel"
              request_value response_value w
            = ⟨ok,
                (d.baseHandleRequest deviceId "setPowerLevel" request_value
                  response_value w).2.1.set "powerLevel"
                  (JsonVariant.integer
                    (limitValue p DIM_SWITCH_MIN_POWER_LEVEL DIM_SWITCH_MAX_POWER_LEVEL)),
                w2,
                [Invocation.baseHandleRequest deviceId "setPowerLevel",
                 Invocation.setPowerLevel deviceId
                   (request_value.get "powerLevel").asInt]⟩) := by
  refine ⟨rfl, rfl, rfl, rfl, rfl, rfl, ?_, ?_, ?_⟩
  · exact (registerAll_slots rs _).1
  · exact (registerAll_slots rs _).2.1
  · intro hid hbase hcb hout
    rw [limitValue_eq_clamp]
    exact handleRequest_set_path ((d.onPowerLevel cb1).onPowerLevel cb2) deviceId
      request_value response_value w c2 ok p w2 hid hbase (by rw [hcb]; rfl) hout

/-- Witness of C7: after registering the failing callback and then the doubling
one, a `setPowerLevel` request runs only the doubling one. -/
theorem registration_last_write_wins_witness :
    ("dimmer-1" = sampleSwitch.deviceId
      ∧ (sampleSwitch.baseHandleRequest "dimmer-1" "setPowerLevel" sampleRequest
          JsonObject.empty []).1 = false
      ∧ sampleSetDouble "dimmer-1" (sampleRequest.get "powerLevel").asInt
          (sampleSwitch.baseHandleRequest "dimmer-1" "setPowerLevel" sampleRequest
            JsonObject.empty []).2.2 = (true, 160, ["double"]))
    ∧ ((sampleSwitch.onPowerLevel (some sampleSetFail)).onPowerLevel
          (some sampleSetDouble)).handleRequest "dimmer-1" "setPowerLevel" sampleRequest
          JsonObject.empty []
        = ⟨true,
            (sampleSwitch.baseHandleRequest "dimmer-1" "setPowerLevel" sampleRequest
              JsonObject.empty []).2.1.set "powerLevel"
              (JsonVariant.integer
                (limitValue 160 DIM_SWITCH_MIN_POWER_LEVEL DIM_SWITCH_MAX_POWER_LEVEL)),
            ["double"],
            [Invocation.baseHandleRequest "dimmer-1" "setPowerLevel",
             Invocation.setPowerLevel "dimmer-1" (sampleRequest.get "powerLevel").asInt]⟩ :=
  ⟨⟨rfl, rfl, rfl⟩,
   (registration_last_write_wins sampleSwitch (some sampleSetFail) (some sampleSetDouble)
      none none [] sampleSetDouble "dimmer-1" sampleRequest JsonObject.empty [] true 160
      ["double"]).2.2.2.2.2.2.2.2 rfl rfl rfl rfl⟩

/-- C10: a request whose device id differs from the device's own gets false,
with no handler consulted (not even the base class), the response and the
program state untouched, whatever the action and the registered callbacks; a
request with matching id that the base class handles gets true, and neither the
`setPowerLevel` nor the `adjustPowerLevel` callback runs. -/
theorem handleRequest_guard_and_base_precedence {σ : Type} (d : SinricProDimSwitch σ)
    (deviceId action : String) (request_value response_value : JsonObject) (w : σ) :
    (deviceId ≠ d.deviceId →
        d.handleRequest deviceId action request_value response_value w
          = ⟨false, response_value, w, []⟩)
      ∧ (deviceId = d.deviceId →
          (d.baseHandleRequest deviceId action request_value response_value w).1 = true →
          d.handleRequest deviceId action request_value response_value w
            = ⟨true, (d.baseHandleRequest deviceId action request_value response_value w).2.1,
                (d.baseHandleRequest deviceId action request_value response_value w).2.2,
                [Invocation.baseHandleRequest deviceId action]⟩) :=
  ⟨handleRequest_other_device d deviceId action request_value response_value w,
   handleRequest_base_handled d deviceId action request_value response_value w⟩

/-- Witness of C10: the sample switch ignores a request for another device, and
leaves a `setPowerState` request to the base class. -/
theorem handleRequest_guard_and_base_precedence_witness :
    ("dimmer-2" ≠ sampleSwitch.deviceId
      ∧ sampleSwitch.handleRequest "dimmer-2" "setPowerLevel" sampleRequest JsonObject.empty []
          = ⟨false, JsonObject.empty, [], []⟩)
    ∧ ("dimmer-1" = sampleSwitch.deviceId
      ∧ (sampleSwitch.baseHandleRequest "dimmer-1" "setPowerState" sampleRequest
          JsonObject.empty []).1 = true
      ∧ sampleSwitch.handleRequest "dimmer-1" "setPowerState" sampleRequest JsonObject.empty []
          = ⟨true,
              (sampleSwitch.baseHandleRequest "dimmer-1" "setPowerState" sampleRequest
                JsonObject.empty []).2.1,
              (sampleSwitch.baseHandleRequest "dimmer-1" "setPowerState" sampleRequest
                JsonObject.empty []).2.2,
              [Invocation.baseHandleRequest "dimmer-1" "setPowerState"]⟩) :=
  ⟨⟨by decide,
    (handleRequest_guard_and_base_precedence sampleSwitch "dimmer-2" "setPowerLevel"
      sampleRequest JsonObject.empty []).1 (by decide)⟩,
   ⟨rfl, rfl,
    (handleRequest_guard_and_base_precedence sampleSwitch "dimmer-1" "setPowerState"
      sampleRequest JsonObject.empty []).2 rfl rfl⟩⟩

/-! ## SinricProPowerSensor.sendPowerSensorEvent: the emitted members -/

theorem sendPowerSensorEvent_members (d : SinricProPowerSensor) (rnd : FloatRounding)
    (getTimestamp : Nat) (sendEvent : EventMessage → Bool)
    (voltage current power apparentPower reactivePower factor : ℚ) (cause : String) :
    (d.sendPowerSensorEvent rnd getTimestamp sendEvent voltage current power apparentPower
        reactivePower factor cause).eventMessage.value
      = ⟨[("startTime", JsonVariant.integer (d.startTime : Int)),
          ("voltage", JsonVariant.real (some voltage)),
          ("current", JsonVariant.real (some current)),
          ("power", JsonVariant.real
            (if power = -1 then floatMul rnd voltage current else some power)),
          ("apparentPower", JsonVariant.real (some apparentPower)),
          ("reactivePower", JsonVariant.real (some reactivePower)),
          ("factor", JsonVariant.real
            (if apparentPower ≠ -1 then
              floatDiv rnd (if power = -1 then floatMul rnd voltage current else some power)
                apparentPower
             else some factor)),
          ("wattHours", JsonVariant.real (d.getWattHours rnd getTimestamp))]⟩ := by
  simp [SinricProPowerSensor.sendPowerSensorEvent, prepareEvent, JsonObject.empty,
    JsonObject.set, setMember]

theorem sendPowerSensorEvent_get (d : SinricProPowerSensor) (rnd : FloatRounding)
    (getTimestamp : Nat) (sendEvent : EventMessage → Bool)
    (voltage current power apparentPower reactivePower factor : ℚ) (cause : String) :
    (d.sendPowerSensorEvent rnd getTimestamp sendEvent voltage current power apparentPower
        reactivePower factor cause).eventMessage.value.get "startTime"
        = JsonVariant.integer (d.startTime : Int)
      ∧ (d.sendPowerSensorEvent rnd getTimestamp sendEvent voltage current power apparentPower
          reactivePower factor cause).eventMessage.value.get "voltage"
        = JsonVariant.real (some voltage)
      ∧ (d.sendPowerSensorEvent rnd getTimestamp sendEvent voltage current power apparentPower
          reactivePower factor cause).eventMessage.value.get "current"
        = JsonVariant.real (some current)
      ∧ (d.sendPowerSensorEvent rnd getTimestamp sendEvent voltage current power apparentPower
          reactivePower factor cause).eventMessage.value.get "power"
        = JsonVariant.real (if power = -1 then floatMul rnd voltage current else some power)
      ∧ (d.sendPowerSensorEvent rnd getTimestamp sendEvent voltage current power apparentPower
          reactivePower factor cause).eventMessage.value.get "apparentPower"
        = JsonVariant.real (some apparentPower)
      ∧ (d.sendPowerSensorEvent rnd getTimestamp sendEvent voltage current power apparentPower
          reactivePower factor cause).eventMessage.value.get "reactivePower"
        = JsonVariant.real (some reactivePower)
      ∧ (d.sendPowerSensorEvent rnd getTimestamp sendEvent voltage current power apparentPower
          reactivePower factor cause).eventMessage.value.get "factor"
        = JsonVariant.real
            (if apparentPower ≠ -1 then
              floatDiv rnd (if power = -1 then floatMul rnd voltage current else some power)
                apparentPower
             else some factor)
      ∧ (d.sendPowerSensorEvent rnd getTimestamp sendEvent voltage current power apparentPower
          reactivePower factor cause).eventMessage.value.get "wattHours"
        = JsonVariant.real (d.getWattHours rnd getTimestamp) := by
  rw [sendPowerSensorEvent_members]
  refine ⟨?_, ?_, ?_, ?_, ?_, ?_, ?_, ?_⟩ <;> simp [JsonObject.get, List.lookup]

theorem ulongSub_of_le (a b : Nat) (hle : b ≤ a) (ha : a < ULONG_MOD) :
    ulongSub a b = a - b := by
  unfold ulongSub
  have hb : b < ULONG_MOD := lt_of_le_of_lt hle ha
  rw [Nat.mod_eq_of_lt ha, Nat.mod_eq_of_lt hb]
  have h1 : a + ULONG_MOD - b = (a - b) + ULONG_MOD := by omega
  rw [h1, Nat.add_mod_right]
  exact Nat.mod_eq_of_lt (by omega)

theorem floatToULong_in_range (x : ℚ) (h0 : 0 ≤ x) (hmax : x < (ULONG_MOD : ℚ)) :
    floatToULong x = ⌊x⌋₊ := by
  unfold floatToULong
  rw [if_neg (not_lt.mpr h0), if_neg (not_le.mpr hmax)]

theorem sendPowerSensorEvent_device (d : SinricProPowerSensor) (rnd : FloatRounding)
    (getTimestamp : Nat) (sendEvent : EventMessage → Bool)
    (voltage current power apparentPower reactivePower factor : ℚ) (cause : String) :
    (d.sendPowerSensorEvent rnd getTimestamp sendEvent voltage current power apparentPower
        reactivePower factor cause).device
      = ⟨d.deviceId, getTimestamp,
          storeULong (if power = -1 then floatMul rnd voltage current else some power)⟩ := by
  simp [SinricProPowerSensor.sendPowerSensorEvent]

theorem sendPowerSensorEvent_lastPower (d : SinricProPowerSensor) (rnd : FloatRounding)
    (getTimestamp : Nat) (sendEvent : EventMessage → Bool)
    (voltage current power apparentPower reactivePower factor : ℚ) (cause : String) (P : ℚ)
    (hP : (d.sendPowerSensorEvent rnd getTimestamp sendEvent voltage current power
        apparentPower reactivePower factor cause).eventMessage.value.get "power"
      = JsonVariant.real (some P))
    (h0 : 0 ≤ P) (hmax : P < (ULONG_MOD : ℚ)) :
    (d.sendPowerSensorEvent rnd getTimestamp sendEvent voltage current power apparentPower
        reactivePower factor cause).device
      = ⟨d.deviceId, getTimestamp, ⌊P⌋₊⟩ := by
  rw [(sendPowerSensorEvent_get _ _ _ _ _ _ _ _ _ _ _).2.2.2.1] at hP
  have hP1 : (if power = -1 then floatMul rnd voltage current else some power) = some P := by
    injection hP
  rw [sendPowerSensorEvent_device, hP1]
  simp only [storeULong, floatToULong_in_range P h0 hmax]

theorem floatArg_some (x : ℚ) : floatArg (some x) = x := rfl

theorem floatArg_none : floatArg none = -1 := rfl

/-! ## Claims about SinricProPowerSensor -/

/-- C5: when `power` is left out (it keeps its default -1) the emitted `power`
member is `voltage * current`; when a power other than -1 is given, the emitted
`power` member is that value; the `voltage` and `current` members are always the
arguments (stated over exact arithmetic). -/
theorem sendPowerSensorEvent_power_default (d : SinricProPowerSensor) (getTimestamp : Nat)
    (sendEvent : EventMessage → Bool) (voltage current given : ℚ)
    (power apparentPower reactivePower factor : Option ℚ) (cause : Option String)
    (hgiven : given ≠ -1) :
    (d.sendPowerSensorEventCall exactArithmetic getTimestamp sendEvent voltage current none
        apparentPower reactivePower factor cause).eventMessage.value.get "power"
        = JsonVariant.real (some (voltage * current))
      ∧ (d.sendPowerSensorEventCall exactArithmetic getTimestamp sendEvent voltage current
          (some given) apparentPower reactivePower factor cause).eventMessage.value.get "power"
        = JsonVariant.real (some given)
      ∧ (d.sendPowerSensorEventCall exactArithmetic getTimestamp sendEvent voltage current
          power apparentPower reactivePower factor cause).eventMessage.value.get "voltage"
        = JsonVariant.real (some voltage)
      ∧ (d.sendPowerSensorEventCall exactArithmetic getTimestamp sendEvent voltage current
          power apparentPower reactivePower factor cause).eventMessage.value.get "current"
        = JsonVariant.real (some current) := by
  unfold SinricProPowerSensor.sendPowerSensorEventCall
  refine ⟨?_, ?_, ?_, ?_⟩
  · rw [(sendPowerSensorEvent_get _ _ _ _ _ _ _ _ _ _ _).2.2.2.1]
    simp [floatArg, floatMul, exactArithmetic]
  · rw [(sendPowerSensorEvent_get _ _ _ _ _ _ _ _ _ _ _).2.2.2.1]
    simp [floatArg, hgiven]
  · exact (sendPowerSensorEvent_get _ _ _ _ _ _ _ _ _ _ _).2.1
  · exact (sendPowerSensorEvent_get _ _ _ _ _ _ _ _ _ _ _).2.2.1

/-- Witness of C5: with 3 V, 0.5 A and power left out the event reports 1.5 W;
with power 5 given it reports 5 W. -/
theorem sendPowerSensorEvent_power_default_witness :
    (5 : ℚ) ≠ -1
    ∧ (sampleSensor.sendPowerSensorEventCall exactArithmetic 1 sampleSend 3 (1 / 2) none none
          none none none).eventMessage.value.get "power"
        = JsonVariant.real (some (3 * (1 / 2)))
    ∧ (sampleSensor.sendPowerSensorEventCall exactArithmetic 1 sampleSend 3 (1 / 2) (some 5)
          none none none none).eventMessage.value.get "power" = JsonVariant.real (some 5) :=
  ⟨by norm_num,
   (sendPowerSensorEvent_power_default sampleSensor 1 sampleSend 3 (1 / 2) 5 none none none
      none none (by norm_num)).1,
   (sendPowerSensorEvent_power_default sampleSensor 1 sampleSend 3 (1 / 2) 5 none none none
      none none (by norm_num)).2.1⟩

/-- C6: when `apparentPower` is given (a value `given` other than -1) the emitted
`factor` member is the quotient of the resolved power (`voltage * current` when
power was left out) by `given`, whatever factor the caller passed; for
`given = 0` that quotient is not a finite number. When `apparentPower` is left
out the emitted `factor` is the caller's, -1 if left out, and the emitted
`apparentPower` and `reactivePower` are -1 if left out (stated over exact
arithmetic). -/
theorem sendPowerSensorEvent_factor_default (d : SinricProPowerSensor) (getTimestamp : Nat)
    (sendEvent : EventMessage → Bool) (voltage current given : ℚ)
    (power apparentPower reactivePower factor : Option ℚ) (cause : Option String)
    (hgiven : given ≠ -1) :
    (d.sendPowerSensorEventCall exactArithmetic getTimestamp sendEvent voltage current power
        (some given) reactivePower factor cause).eventMessage.value.get "factor"
        = JsonVariant.real
            (floatDiv exactArithmetic
              (some (if floatArg power = -1 then voltage * current else floatArg power)) given)
      ∧ (given ≠ 0 →
          (d.sendPowerSensorEventCall exactArithmetic getTimestamp sendEvent voltage current
            power (some given) reactivePower factor cause).eventMessage.value.get "factor"
          = JsonVariant.real (some
              ((if floatArg power = -1 then voltage * current else floatArg power) / given)))
      ∧ (given ≠ 0 →
          (d.sendPowerSensorEventCall exactArithmetic getTimestamp sendEvent voltage current
            none (some given) reactivePower factor cause).eventMessage.value.get "factor"
          = JsonVariant.real (some (voltage * current / given)))
      ∧ (given = 0 →
          (d.sendPowerSensorEventCall exactArithmetic getTimestamp sendEvent voltage current
            power (some given) reactivePower factor cause).eventMessage.value.get "factor"
          = JsonVariant.real none)
      ∧ (d.sendPowerSensorEventCall exactArithmetic getTimestamp sendEvent voltage current
          power none reactivePower factor cause).eventMessage.value.get "factor"
        = JsonVariant.real (some (floatArg factor))
      ∧ (d.sendPowerSensorEventCall exactArithmetic getTimestamp sendEvent voltage current
          power none reactivePower none cause).eventMessage.value.get "factor"
        = JsonVariant.real (some (-1))
      ∧ (d.sendPowerSensorEventCall exactArithmetic getTimestamp sendEvent voltage current
          power none reactivePower factor cause).eventMessage.value.get "apparentPower"
        = JsonVariant.real (some (-1))
      ∧ (d.sendPowerSensorEventCall exactArithmetic getTimestamp sendEvent voltage current
          power apparentPower none factor cause).eventMessage.value.get "reactivePower"
        = JsonVariant.real (some (-1)) := by
  unfold SinricProPowerSensor.sendPowerSensorEventCall
  refine ⟨?_, ?_, ?_, ?_, ?_, ?_, ?_, ?_⟩
  · rw [(sendPowerSensorEvent_get _ _ _ _ _ _ _ _ _ _ _).2.2.2.2.2.2.1]
    by_cases hp : floatArg power = -1 <;>
      simp [floatArg_some, floatArg_none, hgiven, floatMul, exactArithmetic, hp]
  · intro h0
    rw [(sendPowerSensorEvent_get _ _ _ _ _ _ _ _ _ _ _).2.2.2.2.2.2.1]
    by_cases hp : floatArg power = -1 <;>
      simp [floatArg_some, floatArg_none, hgiven, floatDiv, floatMul, exactArithmetic, h0, hp]
  · intro h0
    rw [(sendPowerSensorEvent_get _ _ _ _ _ _ _ _ _ _ _).2.2.2.2.2.2.1]
    simp [floatArg_some, floatArg_none, hgiven, floatDiv, floatMul, exactArithmetic, h0]
  · intro h0
    rw [(sendPowerSensorEvent_get _ _ _ _ _ _ _ _ _ _ _).2.2.2.2.2.2.1]
    by_cases hp : floatArg power = -1 <;>
      simp [floatArg_some, floatArg_none, hgiven, floatDiv, floatMul, exactArithmetic, h0, hp]
  · rw [(sendPowerSensorEvent_get _ _ _ _ _ _ _ _ _ _ _).2.2.2.2.2.2.1]
    simp [floatArg]
  · rw [(sendPowerSensorEvent_get _ _ _ _ _ _ _ _ _ _ _).2.2.2.2.2.2.1]
    simp [floatArg]
  · rw [(sendPowerSensorEvent_get _ _ _ _ _ _ _ _ _ _ _).2.2.2.2.1]
    simp [floatArg]
  · rw [(sendPowerSensorEvent_get _ _ _ _ _ _ _ _ _ _ _).2.2.2.2.2.1]
    simp [floatArg]

/-- Witness of C6: 230 V and 2 A with apparent power 500 and a caller's factor
of 9 give the factor 230 * 2 / 500. -/
theorem sendPowerSensorEvent_factor_default_witness :
    ((500 : ℚ) ≠ -1 ∧ (500 : ℚ) ≠ 0)
    ∧ (sampleSensor.sendPowerSensorEventCall exactArithmetic 1 sampleSend 230 2 none
          (some 500) none (some 9) none).eventMessage.value.get "factor"
        = JsonVariant.real (some (230 * 2 / 500)) :=
  ⟨⟨by norm_num, by norm_num⟩,
   (sendPowerSensorEvent_factor_default sampleSensor 1 sampleSend 230 2 500 none none none
      (some 9) none (by norm_num)).2.2.1 (by norm_num)⟩

/-- C9: every call emits as `startTime` the start time stored before the call
(0 for the first event of a device, the previous call's timestamp afterwards);
after the call the stored start time is this call's timestamp, and the stored
`lastPower` is the power `P` this call emits with its fraction discarded (for
`0 ≤ P < 2^32`, where the conversion to `unsigned long` is defined); the stored
fields do not depend on what `sendEvent` returns, so they are also updated when
it returns false. This holds in every float arithmetic. -/
theorem sendPowerSensorEvent_state_threading (d : SinricProPowerSensor) (rnd : FloatRounding)
    (getTimestamp nextTimestamp : Nat) (sendEvent otherSend : EventMessage → Bool)
    (voltage current power apparentPower reactivePower factor : ℚ) (cause : String)
    (voltage2 current2 power2 apparentPower2 reactivePower2 factor2 : ℚ) (cause2 : String)
    (deviceId : String) (P : ℚ) :
    (d.sendPowerSensorEvent rnd getTimestamp sendEvent voltage current power apparentPower
        reactivePower factor cause).eventMessage.value.get "startTime"
        = JsonVariant.integer (d.startTime : Int)
      ∧ ((SinricProPowerSensor.construct deviceId).sendPowerSensorEvent rnd getTimestamp
          sendEvent voltage current power apparentPower reactivePower factor
          cause).eventMessage.value.get "startTime" = JsonVariant.integer 0
      ∧ ((d.sendPowerSensorEvent rnd getTimestamp sendEvent voltage current power
          apparentPower reactivePower factor cause).device.sendPowerSensorEvent rnd
          nextTimestamp otherSend voltage2 current2 power2 apparentPower2 reactivePower2
          factor2 cause2).eventMessage.value.get "startTime"
        = JsonVariant.integer (getTimestamp : Int)
      ∧ (d.sendPowerSensorEvent rnd getTimestamp sendEvent voltage current power apparentPower
          reactivePower factor cause).device.startTime = getTimestamp
      ∧ ((d.sendPowerSensorEvent rnd getTimestamp sendEvent voltage current power
            apparentPower reactivePower factor cause).eventMessage.value.get "power"
          = JsonVariant.real (some P) → 0 ≤ P → P < (ULONG_MOD : ℚ) →
          (d.sendPowerSensorEvent rnd getTimestamp sendEvent voltage current power
            apparentPower reactivePower factor cause).device.lastPower = ⌊P⌋₊
          ∧ (d.sendPowerSensorEvent rnd getTimestamp (fun _ => false) voltage current power
            apparentPower reactivePower factor cause).device
            = ⟨d.deviceId, getTimestamp, ⌊P⌋₊⟩)
      ∧ (d.sendPowerSensorEvent rnd getTimestamp sendEvent voltage current power apparentPower
          reactivePower factor cause).sent
        = sendEvent (d.sendPowerSensorEvent rnd getTimestamp sendEvent voltage current power
            apparentPower reactivePower factor cause).eventMessage
      ∧ (d.sendPowerSensorEvent rnd getTimestamp (fun _ => false) voltage current power
          apparentPower reactivePower factor cause).sent = false
      ∧ (d.sendPowerSensorEvent rnd getTimestamp otherSend voltage current power apparentPower
          reactivePower factor cause).device
        = (d.sendPowerSensorEvent rnd getTimestamp sendEvent voltage current power
            apparentPower reactivePower factor cause).device := by
  refine ⟨?_, ?_, ?_, ?_, ?_, ?_, ?_, ?_⟩
  · exact (sendPowerSensorEvent_get _ _ _ _ _ _ _ _ _ _ _).1
  · rw [(sendPowerSensorEvent_get _ _ _ _ _ _ _ _ _ _ _).1]
    rfl
  · rw [(sendPowerSensorEvent_get _ _ _ _ _ _ _ _ _ _ _).1, sendPowerSensorEvent_device]
  · rw [sendPowerSensorEvent_device]
  · intro hP h0 hmax
    have hdev := sendPowerSensorEvent_lastPower d rnd getTimestamp sendEvent voltage current
      power apparentPower reactivePower factor cause P hP h0 hmax
    constructor
    · rw [hdev]
    · rw [← hdev, sendPowerSensorEvent_device, sendPowerSensorEvent_device]
  · rfl
  · rfl
  · rw [sendPowerSensorEvent_device, sendPowerSensorEvent_device]

/-- Witness of C9 on the target arithmetic: `0.7f` V times 10 A is emitted as
the float 7, and 7 is stored; 3 V times 0.5 A is emitted as 1.5, and 1 is
stored. -/
theorem sendPowerSensorEvent_state_threading_witness :
    (((sampleSensor.sendPowerSensorEvent binary32 1 sampleSend sampleVoltage 10 (-1) (-1)
          (-1) (-1) "PERIODIC_POLL").eventMessage.value.get "power"
        = JsonVariant.real (some 7) ∧ (0 : ℚ) ≤ 7 ∧ (7 : ℚ) < (ULONG_MOD : ℚ))
      ∧ (sampleSensor.sendPowerSensorEvent binary32 1 sampleSend sampleVoltage 10 (-1) (-1)
          (-1) (-1) "PERIODIC_POLL").device.lastPower = ⌊(7 : ℚ)⌋₊
      ∧ ⌊(7 : ℚ)⌋₊ = 7)
    ∧ (((sampleSensor.sendPowerSensorEvent binary32 1 sampleSend 3 (1 / 2) (-1) (-1) (-1)
          (-1) "PERIODIC_POLL").eventMessage.value.get "power"
        = JsonVariant.real (some (3 / 2)) ∧ (0 : ℚ) ≤ 3 / 2 ∧ (3 / 2 : ℚ) < (ULONG_MOD : ℚ))
      ∧ (sampleSensor.sendPowerSensorEvent binary32 1 (fun _ => false) 3 (1 / 2) (-1) (-1)
          (-1) (-1) "PERIODIC_POLL").device = ⟨"sensor-1", 1, ⌊(3 / 2 : ℚ)⌋₊⟩
      ∧ ⌊(3 / 2 : ℚ)⌋₊ = 1) :=
  ⟨⟨⟨by decide!, by decide!, by decide!⟩,
    ((sendPowerSensorEvent_state_threading sampleSensor binary32 1 2 sampleSend sampleSend
      sampleVoltage 10 (-1) (-1) (-1) (-1) "PERIODIC_POLL" 0 0 0 0 0 0 "" "" 7).2.2.2.2.1
      (by decide!) (by decide!) (by decide!)).1,
    by decide!⟩,
   ⟨⟨by decide!, by decide!, by decide!⟩,
    ((sendPowerSensorEvent_state_threading sampleSensor binary32 1 2 sampleSend sampleSend
      3 (1 / 2) (-1) (-1) (-1) (-1) "PERIODIC_POLL" 0 0 0 0 0 0 "" "" (3 / 2)).2.2.2.2.1
      (by decide!) (by decide!) (by decide!)).2,
    by decide!⟩⟩

/-- C8 fails as stated, on the target arithmetic: the first sample event reports
a power of 1.5 W at timestamp 1, the second event is taken at timestamp 3601,
and its `wattHours` member is 1, not (3601 - 1) * 1.5 / 3600 = 1.5. -/
theorem wattHours_from_reported_power_counterexample :
    sampleFirst.eventMessage.value.get "power" = JsonVariant.real (some (3 / 2))
      ∧ sampleFirst.eventMessage.value.get "wattHours" = JsonVariant.real (some 0)
      ∧ sampleFirst.device.startTime = 1
      ∧ sampleSecond.eventMessage.value.get "wattHours" = JsonVariant.real (some 1)
      ∧ sampleSecond.eventMessage.value.get "wattHours"
        ≠ JsonVariant.real (some (((3601 : ℚ) - 1) * (3 / 2) / 3600)) := by
  refine ⟨?_, ?_, ?_, ?_, ?_⟩ <;> decide!

/-- C8 as amended: an event sent while the stored start time is 0 (so the first
event of a device) carries `wattHours = 0`. For two successive calls with
timestamps `t1 ≤ t2 < 2^32`, `t1 ≠ 0`, where the first event emits the power
`P1` with `0 ≤ P1 < 2^32`, the second event's `wattHours` is the float quotient
by `3600.0f` of the `unsigned long` `N = (t2 - t1) * ⌊P1⌋ mod 2^32` converted to
float, where `⌊P1⌋` is `P1` with its fraction discarded, as stored in
`lastPower`. In exact arithmetic that is `N / 3600`, which is
`(t2 - t1) * P1 / 3600` when `P1` is a whole number and `(t2 - t1) * P1 < 2^32`. -/
theorem wattHours_between_events (rnd : FloatRounding) (d : SinricProPowerSensor)
    (t1 t2 : Nat) (send1 send2 : EventMessage → Bool)
    (voltage1 current1 power1 apparentPower1 reactivePower1 factor1 : ℚ) (cause1 : String)
    (voltage2 current2 power2 apparentPower2 reactivePower2 factor2 : ℚ) (cause2 : String)
    (P1 : ℚ) :
    (d.startTime = 0 →
        (d.sendPowerSensorEvent rnd t1 send1 voltage1 current1 power1 apparentPower1
          reactivePower1 factor1 cause1).eventMessage.value.get "wattHours"
        = JsonVariant.real (some 0))
      ∧ (t1 ≠ 0 → t1 ≤ t2 → t2 < ULONG_MOD →
          (d.sendPowerSensorEvent rnd t1 send1 voltage1 current1 power1 apparentPower1
            reactivePower1 factor1 cause1).eventMessage.value.get "power"
            = JsonVariant.real (some P1) →
          0 ≤ P1 → P1 < (ULONG_MOD : ℚ) →
          ((d.sendPowerSensorEvent rnd t1 send1 voltage1 current1 power1 apparentPower1
              reactivePower1 factor1 cause1).device.sendPowerSensorEvent rnd t2 send2 voltage2
              current2 power2 apparentPower2 reactivePower2 factor2
              cause2).eventMessage.value.get "wattHours"
            = JsonVariant.real
                (floatDiv rnd (floatOfULong rnd ((t2 - t1) * ⌊P1⌋₊ % ULONG_MOD)) 3600)
          ∧ ((∀ x : ℚ, rnd x = some x) →
              ((d.sendPowerSensorEvent rnd t1 send1 voltage1 current1 power1 apparentPower1
                reactivePower1 factor1 cause1).device.sendPowerSensorEvent rnd t2 send2
                voltage2 current2 power2 apparentPower2 reactivePower2 factor2
                cause2).eventMessage.value.get "wattHours"
              = JsonVariant.real
                  (some ((((t2 - t1) * ⌊P1⌋₊ % ULONG_MOD : Nat) : ℚ) / 3600)))
          ∧ ((∀ x : ℚ, rnd x = some x) → ∀ n : Nat, P1 = (n : ℚ) →
              (t2 - t1) * n < ULONG_MOD →
              ((d.sendPowerSensorEvent rnd t1 send1 voltage1 current1 power1 apparentPower1
                reactivePower1 factor1 cause1).device.sendPowerSensorEvent rnd t2 send2
                voltage2 current2 power2 apparentPower2 reactivePower2 factor2
                cause2).eventMessage.value.get "wattHours"
              = JsonVariant.real (some (((t2 - t1 : Nat) : ℚ) * P1 / 3600)))) := by
  constructor
  · intro hstart
    rw [(sendPowerSensorEvent_get _ _ _ _ _ _ _ _ _ _ _).2.2.2.2.2.2.2]
    simp [SinricProPowerSensor.getWattHours, hstart]
  · intro ht1 hle ht2 hP h0 hmax
    have hmain : ((d.sendPowerSensorEvent rnd t1 send1 voltage1 current1 power1
          apparentPower1 reactivePower1 factor1 cause1).device.sendPowerSensorEvent rnd t2
          send2 voltage2 current2 power2 apparentPower2 reactivePower2 factor2
          cause2).eventMessage.value.get "wattHours"
        = JsonVariant.real
            (floatDiv rnd (floatOfULong rnd ((t2 - t1) * ⌊P1⌋₊ % ULONG_MOD)) 3600) := by
      rw [(sendPowerSensorEvent_get _ _ _ _ _ _ _ _ _ _ _).2.2.2.2.2.2.2,
        sendPowerSensorEvent_lastPower d rnd t1 send1 voltage1 current1 power1 apparentPower1
          reactivePower1 factor1 cause1 P1 hP h0 hmax]
      simp only [SinricProPowerSensor.getWattHours, ne_eq, ht1, not_false_eq_true, if_true,
        ulongMul, ulongSub_of_le t2 t1 hle ht2]
    have hexact : (∀ x : ℚ, rnd x = some x) →
        floatDiv rnd (floatOfULong rnd ((t2 - t1) * ⌊P1⌋₊ % ULONG_MOD)) 3600
          = some ((((t2 - t1) * ⌊P1⌋₊ % ULONG_MOD : Nat) : ℚ) / 3600) := by
      intro hr
      simp [floatDiv, floatOfULong, hr]
    refine ⟨hmain, ?_, ?_⟩
    · intro hr
      rw [hmain, hexact hr]
    · intro hr n hn hprod
      rw [hmain, hexact hr, hn, Nat.floor_natCast, Nat.mod_eq_of_lt hprod]
      push_cast
      rfl

/-- Witness of C8 as amended. On the target arithmetic, 74567 W reported at
timestamp 1 and a second event at timestamp 3601 give the float 74567.0078125;
in exact arithmetic they give 74567. -/
theorem wattHours_between_events_witness :
    (((1 : Nat) ≠ 0 ∧ (1 : Nat) ≤ 3601 ∧ 3601 < ULONG_MOD
        ∧ (sampleSensor.sendPowerSensorEvent binary32 1 sampleSend 230 1 74567 (-1) (-1) (-1)
            "PERIODIC_POLL").eventMessage.value.get "power" = JsonVariant.real (some 74567)
        ∧ (0 : ℚ) ≤ 74567 ∧ (74567 : ℚ) < (ULONG_MOD : ℚ))
      ∧ ((sampleSensor.sendPowerSensorEvent binary32 1 sampleSend 230 1 74567 (-1) (-1) (-1)
            "PERIODIC_POLL").device.sendPowerSensorEvent binary32 3601 sampleSend 230 1 74567
            (-1) (-1) (-1) "PERIODIC_POLL").eventMessage.value.get "wattHours"
          = JsonVariant.real
              (floatDiv binary32
                (floatOfULong binary32 ((3601 - 1) * ⌊(74567 : ℚ)⌋₊ % ULONG_MOD)) 3600)
      ∧ floatDiv binary32
            (floatOfULong binary32 ((3601 - 1) * ⌊(74567 : ℚ)⌋₊ % ULONG_MOD)) 3600
          = some (9544577 / 128))
    ∧ ((∀ x : ℚ, exactArithmetic x = some x)
      ∧ (74567 : ℚ) = ((74567 : Nat) : ℚ) ∧ (3601 - 1) * 74567 < ULONG_MOD
      ∧ ((sampleSensor.sendPowerSensorEvent exactArithmetic 1 sampleSend 230 1 74567 (-1) (-1)
            (-1) "PERIODIC_POLL").device.sendPowerSensorEvent exactArithmetic 3601 sampleSend
            230 1 74567 (-1) (-1) (-1) "PERIODIC_POLL").eventMessage.value.get "wattHours"
          = JsonVariant.real (some ((((3601 - 1 : Nat) : ℚ)) * 74567 / 3600))) :=
  ⟨⟨⟨by decide, by decide, by decide, by decide!, by decide!, by decide!⟩,
    ((wattHours_between_events binary32 sampleSensor 1 3601 sampleSend sampleSend 230 1 74567
      (-1) (-1) (-1) "PERIODIC_POLL" 230 1 74567 (-1) (-1) (-1) "PERIODIC_POLL" 74567).2
      (by decide) (by decide) (by decide) (by decide!) (by decide!) (by decide!)).1,
    by decide!⟩,
   ⟨fun _ => rfl, by decide!, by decide,
    ((wattHours_between_events exactArithmetic sampleSensor 1 3601 sampleSend sampleSend 230 1
      74567 (-1) (-1) (-1) "PERIODIC_POLL" 230 1 74567 (-1) (-1) (-1) "PERIODIC_POLL"
      74567).2 (by decide) (by decide) (by decide) (by decide!) (by decide!)
      (by decide!)).2.2 (fun _ => rfl) 74567 (by decide!) (by decide)⟩⟩

end SinricPro
